import Mathlib

/-!
Shallow embedding of the cross-chain bridge-and-execute intent orchestration
flow of the MemeVault repository:

* `packages/nextjs/utils/nexusRealIntegration.ts` — `checkNexusSupport`,
  `createRealNexusIntent`, `createSimulatedIntent`;
* the `useNexusIntent` hook — `monitorIntent` (simulated monitor),
  `monitorRealIntent` (real monitor), `createBridgeAndExecute` (facade),
  `reset`;
* `components/MemeVault/AISuggestionModal.tsx` — the chain-switch polling
  loop inside `handleCrossChainConfirm`.

JavaScript objects whose shape varies between code paths (the backend
response and the normalized intent outcome) are modelled as one record of
`Option` fields, where `none` stands for an absent/`undefined` property.
JavaScript truthiness of strings (`undefined`/`""` falsy) and the `||`
operator are modelled explicitly.  External effects (wallet provider reads,
the opaque Nexus SDK call, `Math.random`, `Date.now`) are inputs supplied by
an environment record.  Timers are modelled as timestamped event lists;
`setState` calls are modelled as recorded writes.
-/

/-- Intent lifecycle status, from the `IntentStatus` union type in the hook. -/
inductive IntentStatus where
  | idle
  | creating
  | pending
  | bridging
  | executing
  | completed
  | failed
deriving DecidableEq, Repr

/-- Position of a status in the ordering
`idle < creating < pending < bridging < executing < completed`
used by the spec's monotonic-transition law (`failed` sits outside the chain). -/
def statusRank : IntentStatus → Nat
  | .idle => 0
  | .creating => 1
  | .pending => 2
  | .bridging => 3
  | .executing => 4
  | .completed => 5
  | .failed => 6

/-- One observed transition `a → b` is allowed by the spec's law when `a` is not
`failed`, and either `b` is `failed` with `a` non-terminal, or the rank does
not decrease. -/
def okStep (a b : IntentStatus) : Bool :=
  if b = .failed then a != .failed && a != .completed
  else a != .failed && statusRank a ≤ statusRank b

/-- A recorded status sequence satisfies the monotonic transition law when
every consecutive pair is an allowed step. -/
def monotoneTraceB : List IntentStatus → Bool
  | [] => true
  | [_] => true
  | a :: b :: rest => okStep a b && monotoneTraceB (b :: rest)

/-- JavaScript truthiness for an optional string property:
`undefined` and the empty string are falsy; a truthy string is returned. -/
def jsTruthyStr (o : Option String) : Option String :=
  match o with
  | none => none
  | some s => if s = "" then none else some s

/-- JavaScript `a || b` on two optional string properties. -/
def jsOrS (a b : Option String) : Option String :=
  match jsTruthyStr a with
  | some s => some s
  | none => b

/-- JavaScript `a || b` where the right operand is a (string) literal. -/
def jsOrStr (a : Option String) (b : String) : String :=
  match jsTruthyStr a with
  | some s => s
  | none => b

/-- JavaScript truthiness of an optional boolean property
(`undefined` is falsy). -/
def jsTruthyB (o : Option Bool) : Bool :=
  o.getD false

/-- Result of `checkNexusSupport` in `nexusRealIntegration.ts`. -/
structure SupportCheckResult where
  supported : Bool
  fromChainSupported : Bool
  toChainSupported : Bool
  recommendedToken : String
  warning : Option String
deriving DecidableEq, Repr

/-- The fixed supported-chain allow-list of `checkNexusSupport`
(Ethereum Sepolia and Base Sepolia). -/
def supportedChains : List Nat := [11155111, 84532]

/-- `checkNexusSupport` from `nexusRealIntegration.ts`.  The `catch` branch of
the source (returning the "Unable to verify Nexus support" warning) is
unreachable here because the body performs only pure list lookups. -/
def checkNexusSupport (fromChain toChain : Nat) : SupportCheckResult :=
  let fromSupported := supportedChains.contains fromChain
  let toSupported := supportedChains.contains toChain
  { supported := fromSupported && toSupported
    fromChainSupported := fromSupported
    toChainSupported := toSupported
    recommendedToken := "USDC"
    warning :=
      if !fromSupported || !toSupported then
        some "One or more chains not yet supported on Nexus testnet. Using simulation mode."
      else none }

/-- A loosely-shaped JavaScript intent object: the union of every property
set by the backend response, `createRealNexusIntent`, and
`createSimulatedIntent`.  `none` models an absent (`undefined`) property.
The raw backend response uses `bridgeTransactionHash` / `transactionHash` /
`executeTransactionHash`, while the normalized outcome uses `bridgeTxHash` /
`executeTxHash`. -/
structure JsIntentResult where
  success : Option Bool
  isReal : Option Bool
  intentId : Option String
  bridgeTxHash : Option String
  executeTxHash : Option String
  bridgeSkipped : Option Bool
  error : Option String
  isSimulation : Option Bool
  simulationNotice : Option String
  simulationReason : Option String
  bridgeTransactionHash : Option String
  transactionHash : Option String
  executeTransactionHash : Option String
deriving DecidableEq, Repr

/-- The object with no properties set. -/
def emptyJs : JsIntentResult :=
  { success := none, isReal := none, intentId := none, bridgeTxHash := none
    executeTxHash := none, bridgeSkipped := none, error := none
    isSimulation := none, simulationNotice := none, simulationReason := none
    bridgeTransactionHash := none, transactionHash := none
    executeTransactionHash := none }

/-- The bridge+execute payload submitted to `nexusClient.bridgeAndExecute` by
`createRealNexusIntent` (constant parts of the `execute` sub-object are kept
as fields so the full shape is visible). -/
structure BridgePayload where
  token : String
  amount : String
  chainId : Nat
  sourceChains : List Nat
  executeContractAddress : String
  executeFunctionName : String
  approvalToken : String
  approvalAmount : String
deriving DecidableEq, Repr

/-- The `buildFunctionParams` callback passed in the payload: maps the bridged
token, received amount, destination chain and user address to the destination
`deposit` call's arguments. -/
def buildFunctionParams (token amt : String) (_chainId : Nat) (_addr : String) :
    List String :=
  [token, amt, "MemeVault"]

/-- Parameters of `createRealNexusIntent` (the `nexusClient` handle is
modelled separately as the backend behaviour). -/
structure RealIntentParams where
  fromChain : Nat
  toChain : Nat
  amount : String
  vaultAddress : String
  userAddress : String
deriving DecidableEq, Repr

/-- The constant `bridgeAmount` in `createRealNexusIntent`: 1 USDC in 6-decimal
units. -/
def bridgeAmount : String := "1000000"

/-- The payload `createRealNexusIntent` submits to the backend.  The request's
`amount` (and the hook-level `token`) never reach it: the bridged token is the
constant `"USDC"` and the bridged amount is the constant `bridgeAmount`. -/
def nexusBridgePayload (p : RealIntentParams) : BridgePayload :=
  { token := "USDC"
    amount := bridgeAmount
    chainId := p.toChain
    sourceChains := [p.fromChain]
    executeContractAddress := p.vaultAddress
    executeFunctionName := "deposit"
    approvalToken := "USDC"
    approvalAmount := bridgeAmount }

/-- `createRealNexusIntent` from `nexusRealIntegration.ts`.  `backend` is the
outcome of the opaque `nexusClient.bridgeAndExecute` call (`Except.error`
models a thrown exception whose `message` is the payload).  `nowId` models
`Date.now()`.  The request parameters are used only to build the payload and
in console logging; normalization of the response into the internal outcome
shape depends only on the response. -/
def createRealNexusIntent (_p : RealIntentParams)
    (backend : Except String JsIntentResult) (nowId : String) : JsIntentResult :=
  match backend with
  | .ok r =>
      let bridgeTxHash := jsOrS r.bridgeTransactionHash r.transactionHash
      let executeTxHash := r.executeTransactionHash
      let success := r.success != some false
      { emptyJs with
        success := some success
        isReal := some true
        intentId := some (jsOrStr (jsOrS bridgeTxHash executeTxHash)
          ("nexus-real-" ++ nowId))
        bridgeTxHash := bridgeTxHash
        executeTxHash := executeTxHash
        bridgeSkipped := some ((jsTruthyStr bridgeTxHash).isNone
          && (jsTruthyStr executeTxHash).isSome)
        error := r.error }
  | .error msg =>
      { emptyJs with
        success := some false
        isReal := some false
        error := some msg
        simulationReason := some ("Nexus SDK call failed - "
          ++ (if msg = "" then "Unknown error" else msg)) }

/-- `createSimulatedIntent` from `nexusRealIntegration.ts`.  The two
pseudo-random 64-hex-digit hashes produced by `Math.random` are supplied as
inputs. -/
def createSimulatedIntent (bridgeHash executeHash : String) : JsIntentResult :=
  { emptyJs with
    success := some true
    isReal := some false
    isSimulation := some true
    intentId := some bridgeHash
    bridgeTxHash := some bridgeHash
    executeTxHash := some executeHash
    bridgeSkipped := some false
    simulationNotice := some "⚠️ Simulation Mode: Real Nexus intents require supported chains/tokens. See docs for details." }

/-- One observable effect of the real-intent monitor: a `setStatus`,
`setTxHash` or `setExecuteTxHash` call. -/
inductive MonEffect where
  | setStatus (s : IntentStatus)
  | setTxHash (h : String)
  | setExecuteTxHash (h : String)
deriving DecidableEq, Repr

/-- `monitorRealIntent` from the `useNexusIntent` hook, as the timestamped
list of effects it performs (offsets from monitor start, in milliseconds; the
source uses `setTimeout` with 30000 ms for the bridge wait and a further
10000 ms for the execute wait).  It reads the properties `bridgeSkipped`,
`executeTransactionHash` and `bridgeTransactionHash` of its argument. -/
def monitorRealIntent (result : JsIntentResult) : List (Nat × MonEffect) :=
  if jsTruthyB result.bridgeSkipped then
    (0, .setStatus .executing) ::
      (match jsTruthyStr result.executeTransactionHash with
       | some h =>
           [(0, .setExecuteTxHash h), (0, .setTxHash h),
            (0, .setStatus .completed)]
       | none => [])
  else
    match jsTruthyStr result.bridgeTransactionHash with
    | some bh =>
        (0, .setStatus .bridging) :: (30000, .setStatus .executing) ::
          (match jsTruthyStr result.executeTransactionHash with
           | some eh =>
               [(40000, .setStatus .completed), (40000, .setExecuteTxHash eh),
                (40000, .setTxHash eh)]
           | none =>
               [(30000, .setStatus .completed), (30000, .setTxHash bh)])
    | none => []

/-- The statuses written by a list of real-monitor effects, in order. -/
def effectStatuses (events : List (Nat × MonEffect)) : List IntentStatus :=
  events.filterMap fun e =>
    match e.2 with
    | .setStatus s => some s
    | _ => none

/-- The `maxPolls` bound of the simulated monitor `monitorIntent`. -/
def maxPolls : Nat := 120

/-- Observable outcome of one tick of the simulated monitor: the statuses it
writes (in order), the `txHash`/`error` writes, and whether it schedules the
next tick. -/
structure SimTickResult where
  statuses : List IntentStatus
  txHash : Option String
  error : Option String
  schedulesNext : Bool
deriving DecidableEq, Repr

/-- Common tail of the non-completed branches of the simulated monitor's
`poll`: after writing the phase status, schedule the next tick when
`pollCount < maxPolls`, otherwise write `failed` and the timeout error. -/
def simNonTerminal (phase : IntentStatus) (pollCount : Nat) : SimTickResult :=
  if pollCount < maxPolls then
    { statuses := [phase], txHash := none, error := none, schedulesNext := true }
  else
    { statuses := [phase, .failed], txHash := none
      error := some "Intent timed out", schedulesNext := false }

/-- One tick of the simulated monitor `monitorIntent` from the hook.
`pollCountBefore` is the counter value before the tick's increment; `randTx`
models the random hash written by the completion branch.  (The source's
`catch`-and-retry around the body only guards the `setState` calls, which
cannot throw in this model.) -/
def simPoll (pollCountBefore : Nat) (randTx : String) : SimTickResult :=
  let pollCount := pollCountBefore + 1
  if pollCount < 3 then
    simNonTerminal .pending pollCount
  else if pollCount < 10 then
    simNonTerminal .bridging pollCount
  else if pollCount < 12 then
    simNonTerminal .executing pollCount
  else
    { statuses := [.completed], txHash := some randTx, error := none
      schedulesNext := false }

/-- Run the simulated monitor from counter value `pollCountBefore`,
collecting every status it writes, for at most `fuel` further ticks. -/
def simRunAux (randTx : String) : Nat → Nat → List IntentStatus
  | 0, _ => []
  | fuel + 1, pollCountBefore =>
      let r := simPoll pollCountBefore randTx
      r.statuses ++
        (if r.schedulesNext then simRunAux randTx fuel (pollCountBefore + 1)
         else [])

/-- All statuses the simulated monitor writes when started from a fresh
counter (the fuel bound 200 exceeds `maxPolls`, so it never cuts the run
short). -/
def simObservedStatuses (randTx : String) : List IntentStatus :=
  simRunAux randTx 200 0

/-- Hook-level request parameters (`BridgeAndExecuteParams` in the hook). -/
structure BridgeAndExecuteParams where
  fromChain : Nat
  toChain : Nat
  token : String
  amount : String
  targetProtocol : String
deriving DecidableEq, Repr

/-- Environment of one `createBridgeAndExecute` call: the wallet/contract
context read by the hook and the outcomes of every external interaction. -/
structure FacadeEnv where
  /-- `address` from `useAccount`; `none` models a disconnected wallet. -/
  address : Option String
  /-- whether `walletClient` from `useWalletClient` is available. -/
  walletClientPresent : Bool
  /-- `memeVaultContract?.address`; `none` when the contract is not deployed. -/
  vaultAddress : Option String
  /-- `parseEther` from viem, modelled as an oracle on the decimal string. -/
  parseEther : String → String
  /-- decimal chain id from the first `eth_chainId` read. -/
  chainBefore : Nat
  /-- decimal chain id re-read after the switch attempts (only consulted when
  `chainBefore` differs from the requested source chain). -/
  chainAfter : Nat
  /-- `isNexusInitialized()`. -/
  alreadyInitialized : Bool
  /-- whether `initializeNexus` succeeds (when it is called). -/
  initOk : Bool
  /-- outcome of the opaque `nexusClient.bridgeAndExecute` call. -/
  backend : Except String JsIntentResult
  /-- `Date.now()` rendered as a string. -/
  nowId : String
  /-- random hash generated for the simulated bridge transaction. -/
  simBridgeHash : String
  /-- random hash generated for the simulated execute transaction. -/
  simExecuteHash : String
  /-- random hash written by the simulated monitor's completion tick. -/
  simMonitorTx : String

/-- The handle `createBridgeAndExecute` resolves with. -/
structure IntentHandle where
  id : Option String
  status : IntentStatus
  bridgeTxHash : Option String
  executeTxHash : Option String
  isReal : Bool
deriving DecidableEq, Repr

/-- Observable result of one `createBridgeAndExecute` call: the statuses the
facade itself writes (in order), the payload submitted to the backend (when a
real attempt reaches the backend), the started monitor's effects, and the
resolved handle or thrown error. -/
structure CallResult where
  statusWrites : List IntentStatus
  submittedPayload : Option BridgePayload
  realMonitorEvents : List (Nat × MonEffect)
  simMonitorStatuses : List IntentStatus
  outcome : Except String IntentHandle
deriving Repr

/-- A call result carrying no writes at all, with the given thrown error
(the three precondition throws in the source occur before any `setState`). -/
def throwResult (msg : String) : CallResult :=
  { statusWrites := [], submittedPayload := none, realMonitorEvents := []
    simMonitorStatuses := [], outcome := .error msg }

/-- `createBridgeAndExecute` from the `useNexusIntent` hook.  The outer
`catch` (which writes `failed` and rethrows) is unreachable here: after the
three synchronous precondition throws, every failure inside the supported
branch is absorbed into the simulation fallback, exactly as in the source. -/
def createBridgeAndExecute (env : FacadeEnv) (params : BridgeAndExecuteParams) :
    CallResult :=
  if env.address.isNone then throwResult "Wallet not connected"
  else if !env.walletClientPresent then throwResult "Wallet client not available"
  else if env.vaultAddress.isNone then
    throwResult "MemeVault contract not deployed on current network"
  else
    let amountInWei := env.parseEther params.amount
    let support := checkNexusSupport params.fromChain params.toChain
    let attempt : JsIntentResult × Bool × Option BridgePayload :=
      if support.supported then
        -- inner try: chain verification, SDK init, real intent creation;
        -- any throw is caught and replaced by a simulated intent.
        let currentChain :=
          if env.chainBefore = params.fromChain then env.chainBefore
          else env.chainAfter
        if currentChain ≠ params.fromChain then
          (createSimulatedIntent env.simBridgeHash env.simExecuteHash, false, none)
        else if !env.alreadyInitialized && !env.initOk then
          (createSimulatedIntent env.simBridgeHash env.simExecuteHash, false, none)
        else
          let p : RealIntentParams :=
            { fromChain := params.fromChain, toChain := params.toChain
              amount := amountInWei
              vaultAddress := env.vaultAddress.getD ""
              userAddress := env.address.getD "" }
          let r := createRealNexusIntent p env.backend env.nowId
          let isRealIntent := jsTruthyB r.isReal
          if !(jsTruthyB r.success) then
            (createSimulatedIntent env.simBridgeHash env.simExecuteHash,
             isRealIntent, some (nexusBridgePayload p))
          else (r, isRealIntent, some (nexusBridgePayload p))
      else
        (createSimulatedIntent env.simBridgeHash env.simExecuteHash, false, none)
    let result := attempt.1
    let isRealIntent := attempt.2.1
    let statusAfter : IntentStatus :=
      if jsTruthyB result.bridgeSkipped then .executing else .bridging
    { statusWrites := [.creating, statusAfter]
      submittedPayload := attempt.2.2
      realMonitorEvents := if isRealIntent then monitorRealIntent result else []
      simMonitorStatuses :=
        if isRealIntent then [] else simObservedStatuses env.simMonitorTx
      outcome := .ok
        { id := result.intentId
          status := statusAfter
          bridgeTxHash := result.bridgeTxHash
          executeTxHash := result.executeTxHash
          isReal := isRealIntent } }

/-- Every status observably written during one `createBridgeAndExecute` call:
the facade's own writes (all of which precede the monitor hand-off in the
source) followed by the started monitor's writes. -/
def observedStatuses (c : CallResult) : List IntentStatus :=
  c.statusWrites ++ effectStatuses c.realMonitorEvents ++ c.simMonitorStatuses

/-- The session state held by the `useNexusIntent` hook. -/
structure SessionState where
  intentId : Option String
  status : IntentStatus
  error : Option String
  txHash : Option String
  bridgeTxHash : Option String
  executeTxHash : Option String
  loading : Bool
deriving DecidableEq, Repr

/-- The hook's initial session state. -/
def initialSession : SessionState :=
  { intentId := none, status := .idle, error := none, txHash := none
    bridgeTxHash := none, executeTxHash := none, loading := false }

/-- `reset` from the hook: it writes `intentId`, `status`, `error`, `txHash`
and `loading`; it performs no write to `bridgeTxHash` or `executeTxHash`. -/
def reset (s : SessionState) : SessionState :=
  { s with intentId := none, status := .idle, error := none, txHash := none
           loading := false }

/-- `maxAttempts` of the chain-switch confirmation loop in
`handleCrossChainConfirm` (`AISuggestionModal.tsx`). -/
def maxSwitchAttempts : Nat := 30

/-- The fixed delay between two polls of the confirmation loop, in
milliseconds. -/
def switchPollIntervalMs : Nat := 500

/-- The `while (!switchCompleted && attempts < maxAttempts)` loop of
`handleCrossChainConfirm`: `obs i` is the decimal chain id returned by the
`i`-th `eth_chainId` read (the read made after `attempts` was incremented to
`i`).  `fuel` is an upper bound on the remaining iterations; started with
`fuel = maxSwitchAttempts` and `attempts = 0` it never cuts the loop short. -/
def pollFrom (target : Nat) (obs : Nat → Nat) : Nat → Nat → Bool
  | 0, _ => false
  | fuel + 1, attempts =>
      if attempts < maxSwitchAttempts then
        if obs (attempts + 1) = target then true
        else pollFrom target obs fuel (attempts + 1)
      else false

/-- Outcome of the chain-switch confirmation phase. -/
inductive ChainSwitchOutcome where
  | confirmed
  | timedOut (message : String)
deriving DecidableEq, Repr

/-- The confirmation phase of `handleCrossChainConfirm` after the
`wallet_switchEthereumChain` request: poll up to `maxSwitchAttempts` times;
on failure, perform one more `eth_chainId` read (read number 31) and throw
the timeout message built from that final observation and the target. -/
def awaitSwitchConfirmation (target : Nat) (obs : Nat → Nat) : ChainSwitchOutcome :=
  if pollFrom target obs maxSwitchAttempts 0 then .confirmed
  else
    .timedOut ("Network switch timed out. Still on chain "
      ++ toString (obs (maxSwitchAttempts + 1)) ++ ", need " ++ toString target
      ++ ". Please manually switch in MetaMask.")

/-- The phase of the simulated monitor as a function of the (post-increment)
poll counter, as stated by the spec: `pending` below 3, `bridging` below 10,
`executing` below 12, `completed` from 12 on. -/
def simPhase (pollCount : Nat) : IntentStatus :=
  if pollCount < 3 then .pending
  else if pollCount < 10 then .bridging
  else if pollCount < 12 then .executing
  else .completed

/-- Final session status after applying a call's observed status writes to an
initial status. -/
def finalStatus (init : IntentStatus) (c : CallResult) : IntentStatus :=
  (observedStatuses c).foldl (fun _ s => s) init

/-- `o` is absent or equal to one of the two source properties `a`, `b`. -/
def fromEitherBackendField (o a b : Option String) : Bool :=
  match o with
  | none => true
  | some h => a == some h || b == some h

/-- `o` is absent or equal to the source property `a`. -/
def fromBackendField (o a : Option String) : Bool :=
  match o with
  | none => true
  | some h => a == some h

/-- A submitted payload (when present) carries the constant bridged token
`"USDC"` and the constant bridged amount `"1000000"`. -/
def payloadConstants (o : Option BridgePayload) : Bool :=
  match o with
  | none => true
  | some pl => pl.token == "USDC" && pl.amount == bridgeAmount


/-! ## Concrete environments used in closed evaluations -/

/-- A baseline call environment: wallet connected, wallet client available,
vault contract deployed, wallet already on chain 1, SDK initialized, backend
returning an empty response object. -/
def baseEnv : FacadeEnv :=
  { address := some "0xUser", walletClientPresent := true
    vaultAddress := some "0xVault", parseEther := fun s => s
    chainBefore := 1, chainAfter := 1, alreadyInitialized := true
    initOk := true, backend := .ok emptyJs, nowId := "0"
    simBridgeHash := "0xsimbridge", simExecuteHash := "0xsimexec"
    simMonitorTx := "0xsimtx" }

/-- Backend response for the same-chain scenario: the bridge is skipped by the
backend, so only an execute transaction hash is returned. -/
def backendC1 : JsIntentResult :=
  { emptyJs with executeTransactionHash := some "0xexec" }

/-- Environment of the same-chain scenario: wallet already on Base Sepolia. -/
def envC1 : FacadeEnv :=
  { baseEnv with
      chainBefore := 84532
      backend := .ok backendC1 }

/-- Same-chain request: Base Sepolia to Base Sepolia. -/
def paramsC1 : BridgeAndExecuteParams :=
  { fromChain := 84532, toChain := 84532, token := "0xPEPE", amount := "100"
    targetProtocol := "Aave" }

/-- C1: a same-chain (84532 → 84532) bridge-and-execute request whose backend
response carries only an execute hash does yield an outcome with
`bridgeSkipped = true`, and the monitor reports `executing` — but it never
reports `completed`: `monitorRealIntent` reads the property
`executeTransactionHash`, which the normalized outcome does not carry (it
carries `executeTxHash`), so the completion branch never fires.  This
evaluates the code at the failing input of the claim. -/
theorem c1_same_chain_monitor_stalls :
    (createRealNexusIntent ⟨84532, 84532, "100", "0xVault", "0xUser"⟩
        (.ok backendC1) "0").bridgeSkipped = some true ∧
    (createBridgeAndExecute envC1 paramsC1).outcome =
      .ok ⟨some "0xexec", .executing, none, some "0xexec", true⟩ ∧
    observedStatuses (createBridgeAndExecute envC1 paramsC1) =
      [.creating, .executing, .executing] ∧
    IntentStatus.bridging ∉ observedStatuses (createBridgeAndExecute envC1 paramsC1) ∧
    IntentStatus.completed ∉ observedStatuses (createBridgeAndExecute envC1 paramsC1) :=
  ⟨rfl, rfl, rfl, by decide, by decide⟩

/-- Request falling back to simulation: source chain 1 is outside the
supported set. -/
def paramsC2 : BridgeAndExecuteParams :=
  { fromChain := 1, toChain := 84532, token := "0xPEPE", amount := "100"
    targetProtocol := "Aave" }

/-- C2: the observed status sequence of a simulated-fallback lifecycle is NOT
non-decreasing: `createBridgeAndExecute` writes `bridging` before handing off
to the simulated monitor, whose first tick writes `pending` — a strict
decrease under the ordering `idle < creating < pending < bridging <
executing < completed`.  This evaluates the code on a concrete run and
refutes the monotonic transition law. -/
theorem c2_trace_not_monotone :
    observedStatuses (createBridgeAndExecute baseEnv paramsC2) =
      [.creating, .bridging, .pending, .pending, .bridging, .bridging,
       .bridging, .bridging, .bridging, .bridging, .bridging, .executing,
       .executing, .completed] ∧
    monotoneTraceB (observedStatuses (createBridgeAndExecute baseEnv paramsC2)) =
      false :=
  ⟨rfl, rfl⟩

/-- C3: for any chain pair with at least one chain outside the supported set,
`checkNexusSupport` reports `supported = false` with a non-empty warning, and
`createBridgeAndExecute` (given its wallet/contract preconditions) still
resolves successfully with `isReal = false` in the returned handle. -/
theorem c3_unsupported_pair_resolves_simulated (env : FacadeEnv)
    (params : BridgeAndExecuteParams)
    (haddr : env.address.isSome = true)
    (hwc : env.walletClientPresent = true)
    (hvault : env.vaultAddress.isSome = true)
    (hunsup : supportedChains.contains params.fromChain = false ∨
              supportedChains.contains params.toChain = false) :
    (checkNexusSupport params.fromChain params.toChain).supported = false ∧
    (∃ w, (checkNexusSupport params.fromChain params.toChain).warning = some w ∧
      w ≠ "") ∧
    (∃ h, (createBridgeAndExecute env params).outcome = .ok h ∧
      h.isReal = false) := by
  have hmem : params.fromChain ∉ supportedChains ∨ params.toChain ∉ supportedChains := by
    rcases hunsup with h | h
    · exact Or.inl (by simpa using h)
    · exact Or.inr (by simpa using h)
  have hsup : (checkNexusSupport params.fromChain params.toChain).supported = false := by
    rcases hmem with h | h <;> simp [checkNexusSupport, h]
  have hwarn : (checkNexusSupport params.fromChain params.toChain).warning =
      some "One or more chains not yet supported on Nexus testnet. Using simulation mode." := by
    rcases hmem with h | h <;> simp [checkNexusSupport, h]
  have haddr' : env.address.isNone = false := by
    cases h : env.address with
    | none => rw [h] at haddr; simp at haddr
    | some a => simp
  have hvault' : env.vaultAddress.isNone = false := by
    cases h : env.vaultAddress with
    | none => rw [h] at hvault; simp at hvault
    | some a => simp
  refine ⟨hsup, ⟨_, hwarn, by decide⟩, ?_⟩
  simp only [createBridgeAndExecute, haddr', hwc, hvault', hsup,
    createSimulatedIntent, jsTruthyB, Bool.not_true, Bool.false_eq_true,
    if_false, Bool.not_false, if_true, ite_false, ite_true]
  exact ⟨_, rfl, rfl⟩

/-- Witness for C3 at the concrete unsupported pair (1, 84532) in the
baseline environment. -/
theorem c3_unsupported_pair_resolves_simulated_witness :
    (checkNexusSupport 1 84532).supported = false ∧
    (∃ w, (checkNexusSupport 1 84532).warning = some w ∧ w ≠ "") ∧
    (∃ h, (createBridgeAndExecute baseEnv paramsC2).outcome = .ok h ∧
      h.isReal = false) :=
  c3_unsupported_pair_resolves_simulated baseEnv paramsC2 rfl rfl rfl
    (Or.inl (by decide))

/-- The real-intent outcome for a backend response that contains no
transaction hash at all (an empty response object). -/
def c4Outcome : JsIntentResult :=
  createRealNexusIntent ⟨11155111, 84532, "100", "0xVault", "0xUser"⟩
    (.ok emptyJs) "1700000000000"

/-- C4 counterexample: a successful real-intent creation whose backend
response carries no transaction hash still gets `isReal = true`, with both
outcome hashes absent and a locally generated intent id — refuting the
claimed "if and only if". -/
theorem c4_counterexample :
    c4Outcome.success = some true ∧
    c4Outcome.isReal = some true ∧
    c4Outcome.bridgeTxHash = none ∧
    c4Outcome.executeTxHash = none ∧
    c4Outcome.intentId = some "nexus-real-1700000000000" :=
  ⟨rfl, rfl, rfl, rfl, rfl⟩

/-- C4 as amended: on every non-throwing real-intent creation `isReal` is
`true` unconditionally, and any hash present in the outcome originates from
the backend response (`bridgeTxHash` from `bridgeTransactionHash` falling
back to `transactionHash`; `executeTxHash` from `executeTransactionHash`);
`isReal` does not certify that any backend hash is present. -/
theorem c4_amended_hashes_from_backend (p : RealIntentParams)
    (r : JsIntentResult) (nowId : String) :
    (createRealNexusIntent p (.ok r) nowId).isReal = some true ∧
    fromEitherBackendField (createRealNexusIntent p (.ok r) nowId).bridgeTxHash
      r.bridgeTransactionHash r.transactionHash = true ∧
    fromBackendField (createRealNexusIntent p (.ok r) nowId).executeTxHash
      r.executeTransactionHash = true := by
  refine ⟨rfl, ?_, ?_⟩
  · show fromEitherBackendField (jsOrS r.bridgeTransactionHash r.transactionHash)
      r.bridgeTransactionHash r.transactionHash = true
    cases hb : r.bridgeTransactionHash with
    | none =>
        cases hc : r.transactionHash with
        | none => rfl
        | some s => simp [jsOrS, jsTruthyStr, fromEitherBackendField]
    | some s =>
        by_cases hs : s = ""
        · cases hc : r.transactionHash with
          | none => simp [jsOrS, jsTruthyStr, hs, fromEitherBackendField]
          | some u => simp [jsOrS, jsTruthyStr, hs, fromEitherBackendField]
        · simp [jsOrS, jsTruthyStr, hs, fromEitherBackendField]
  · show fromBackendField r.executeTransactionHash r.executeTransactionHash = true
    cases hx : r.executeTransactionHash with
    | none => rfl
    | some s => simp [fromBackendField]

/-- A terminal session: a completed real intent with all identifiers set. -/
def c5Session : SessionState :=
  { intentId := some "0xbridge", status := .completed, error := none
    txHash := some "0xexec", bridgeTxHash := some "0xbridge"
    executeTxHash := some "0xexec", loading := false }

/-- C5 counterexample: `reset` after a terminal (`completed`) state does set
`status` to `idle` and clear `intentId`/`txHash`, but it leaves
`bridgeTxHash` and `executeTxHash` untouched, so not every identifier field
returns to `null`. -/
theorem c5_counterexample :
    c5Session.status = .completed ∧
    (reset c5Session).status = .idle ∧
    (reset c5Session).intentId = none ∧
    (reset c5Session).txHash = none ∧
    (reset c5Session).bridgeTxHash = some "0xbridge" ∧
    (reset c5Session).executeTxHash = some "0xexec" ∧
    reset c5Session ≠ initialSession :=
  ⟨rfl, rfl, rfl, rfl, rfl, rfl, by decide⟩

/-- C5 as amended: from any terminal state, `reset` restores `status` to
`idle` and clears `intentId`, `error`, `txHash` and `loading`, while leaving
`bridgeTxHash` and `executeTxHash` unchanged. -/
theorem c5_amended_reset (s : SessionState)
    (hterm : s.status = .completed ∨ s.status = .failed) :
    (reset s).status = .idle ∧
    (reset s).intentId = none ∧
    (reset s).error = none ∧
    (reset s).txHash = none ∧
    (reset s).loading = false ∧
    (reset s).bridgeTxHash = s.bridgeTxHash ∧
    (reset s).executeTxHash = s.executeTxHash :=
  ⟨rfl, rfl, rfl, rfl, rfl, rfl, rfl⟩

/-- Witness for the amended C5 at the concrete terminal session. -/
theorem c5_amended_reset_witness :
    (reset c5Session).status = .idle ∧
    (reset c5Session).intentId = none ∧
    (reset c5Session).error = none ∧
    (reset c5Session).txHash = none ∧
    (reset c5Session).loading = false ∧
    (reset c5Session).bridgeTxHash = c5Session.bridgeTxHash ∧
    (reset c5Session).executeTxHash = c5Session.executeTxHash :=
  c5_amended_reset c5Session (Or.inl rfl)

/-- C6: when the connected account, the wallet client, or the vault contract
address is absent, `createBridgeAndExecute` throws synchronously: the call
result carries a thrown error, no status was written, no monitor was started,
and a session that was `idle` stays `idle`. -/
theorem c6_precondition_throws (env : FacadeEnv) (params : BridgeAndExecuteParams)
    (h : env.address = none ∨ env.walletClientPresent = false ∨
      env.vaultAddress = none) :
    (∃ msg, (createBridgeAndExecute env params).outcome = .error msg) ∧
    (createBridgeAndExecute env params).statusWrites = [] ∧
    (createBridgeAndExecute env params).realMonitorEvents = [] ∧
    (createBridgeAndExecute env params).simMonitorStatuses = [] ∧
    observedStatuses (createBridgeAndExecute env params) = [] ∧
    finalStatus .idle (createBridgeAndExecute env params) = .idle := by
  have hthrow : ∃ msg, createBridgeAndExecute env params = throwResult msg := by
    rcases h with h | h | h
    · exact ⟨"Wallet not connected", by simp [createBridgeAndExecute, h]⟩
    · by_cases ha : env.address.isNone = true
      · exact ⟨"Wallet not connected", by simp [createBridgeAndExecute, ha]⟩
      · exact ⟨"Wallet client not available",
          by simp [createBridgeAndExecute, ha, h]⟩
    · by_cases ha : env.address.isNone = true
      · exact ⟨"Wallet not connected", by simp [createBridgeAndExecute, ha]⟩
      · by_cases hw : env.walletClientPresent = true
        · exact ⟨"MemeVault contract not deployed on current network",
            by simp [createBridgeAndExecute, ha, hw, h]⟩
        · exact ⟨"Wallet client not available",
            by simp [createBridgeAndExecute, ha, hw]⟩
  obtain ⟨msg, hm⟩ := hthrow
  rw [hm]
  exact ⟨⟨msg, rfl⟩, rfl, rfl, rfl, rfl, rfl⟩

/-- Witness for C6: a disconnected wallet in the baseline environment. -/
theorem c6_precondition_throws_witness :
    (∃ msg, (createBridgeAndExecute { baseEnv with address := none } paramsC1).outcome =
      .error msg) ∧
    (createBridgeAndExecute { baseEnv with address := none } paramsC1).statusWrites = [] ∧
    (createBridgeAndExecute { baseEnv with address := none } paramsC1).realMonitorEvents = [] ∧
    (createBridgeAndExecute { baseEnv with address := none } paramsC1).simMonitorStatuses = [] ∧
    observedStatuses (createBridgeAndExecute { baseEnv with address := none } paramsC1) = [] ∧
    finalStatus .idle (createBridgeAndExecute { baseEnv with address := none } paramsC1) = .idle :=
  c6_precondition_throws { baseEnv with address := none } paramsC1 (Or.inl rfl)

/-- Loop characterization: the confirmation loop succeeds from attempt count
`attempts` with `fuel` remaining iterations exactly when some later poll
within both bounds observes the target chain. -/
lemma pollFrom_true_iff (target : Nat) (obs : Nat → Nat) :
    ∀ fuel attempts, pollFrom target obs fuel attempts = true ↔
      ∃ i, attempts < i ∧ i ≤ attempts + fuel ∧ i ≤ maxSwitchAttempts ∧
        obs i = target := by
  intro fuel
  induction fuel with
  | zero =>
      intro a
      simp only [pollFrom]
      constructor
      · intro hfalse; exact absurd hfalse (by simp)
      · rintro ⟨i, h1, h2, h3, h4⟩; omega
  | succ n ih =>
      intro a
      simp only [pollFrom]
      by_cases ha : a < maxSwitchAttempts
      · rw [if_pos ha]
        by_cases hobs : obs (a + 1) = target
        · rw [if_pos hobs]
          constructor
          · intro _
            exact ⟨a + 1, by omega, by omega, by omega, hobs⟩
          · intro _; rfl
        · rw [if_neg hobs, ih (a + 1)]
          constructor
          · rintro ⟨i, h1, h2, h3, h4⟩
            exact ⟨i, by omega, by omega, h3, h4⟩
          · rintro ⟨i, h1, h2, h3, h4⟩
            have hne : i ≠ a + 1 := by
              intro he; rw [he] at h4; exact hobs h4
            exact ⟨i, by omega, by omega, h3, h4⟩
      · rw [if_neg ha]
        constructor
        · intro hfalse; exact absurd hfalse (by simp)
        · rintro ⟨i, h1, h2, h3, h4⟩; omega

/-- C7: the chain-switch confirmation succeeds exactly when the provider
reports the target chain id at one of the 30 polls; otherwise it fails with
a timeout error whose message reports the last-observed chain id (the final
`eth_chainId` read, observation 31) together with the target chain id. -/
theorem c7_chain_switch_timeout (target : Nat) (obs : Nat → Nat) :
    (awaitSwitchConfirmation target obs = .confirmed ↔
      ∃ i, 1 ≤ i ∧ i ≤ maxSwitchAttempts ∧ obs i = target) ∧
    (awaitSwitchConfirmation target obs ≠ .confirmed →
      awaitSwitchConfirmation target obs = .timedOut
        ("Network switch timed out. Still on chain "
          ++ toString (obs (maxSwitchAttempts + 1)) ++ ", need "
          ++ toString target ++ ". Please manually switch in MetaMask.")) := by
  have hiff : pollFrom target obs maxSwitchAttempts 0 = true ↔
      ∃ i, 1 ≤ i ∧ i ≤ maxSwitchAttempts ∧ obs i = target := by
    rw [pollFrom_true_iff]
    constructor
    · rintro ⟨i, h1, h2, h3, h4⟩; exact ⟨i, by omega, h3, h4⟩
    · rintro ⟨i, h1, h2, h3⟩; exact ⟨i, by omega, by omega, h2, h3⟩
  unfold awaitSwitchConfirmation
  by_cases hp : pollFrom target obs maxSwitchAttempts 0 = true
  · rw [if_pos hp]
    exact ⟨⟨fun _ => hiff.mp hp, fun _ => rfl⟩, fun hne => absurd rfl hne⟩
  · rw [if_neg hp]
    refine ⟨⟨fun he => absurd he (by simp), fun hex => absurd (hiff.mpr hex) hp⟩,
      fun _ => rfl⟩

/-- Witness for C7: a provider stuck on chain 1 while chain 2 is requested
times out with the message reporting both chain ids. -/
theorem c7_chain_switch_timeout_witness :
    awaitSwitchConfirmation 2 (fun _ => 1) = .timedOut
      "Network switch timed out. Still on chain 1, need 2. Please manually switch in MetaMask." :=
  (c7_chain_switch_timeout 2 (fun _ => 1)).2 (by decide)

/-- Backend response for a genuine cross-chain intent: both a bridge and an
execute transaction hash are returned. -/
def backendC8 : JsIntentResult :=
  { emptyJs with
      bridgeTransactionHash := some "0xbridge"
      executeTransactionHash := some "0xexec" }

/-- Environment of the cross-chain real-intent scenario (Sepolia → Base). -/
def envC8 : FacadeEnv :=
  { baseEnv with
      chainBefore := 11155111
      backend := .ok backendC8 }

/-- Cross-chain request: Sepolia to Base Sepolia. -/
def paramsC8 : BridgeAndExecuteParams :=
  { fromChain := 11155111, toChain := 84532, token := "0xPEPE", amount := "100"
    targetProtocol := "Aave" }

/-- C8: a real, non-bridge-skipped outcome that carries a bridge transaction
hash produces NO monitor transitions at all: `monitorRealIntent` reads the
property `bridgeTransactionHash`, which the normalized outcome does not carry
(it carries `bridgeTxHash`), so neither the 30-second `executing` step nor
any `completed` step ever happens; the observable statuses stop at the
facade's own `bridging` write.  This evaluates the code at the failing input
of the claim. -/
theorem c8_real_monitor_never_fires :
    (createBridgeAndExecute envC8 paramsC8).outcome =
      .ok ⟨some "0xbridge", .bridging, some "0xbridge", some "0xexec", true⟩ ∧
    (createRealNexusIntent ⟨11155111, 84532, "100", "0xVault", "0xUser"⟩
        (.ok backendC8) "0").bridgeSkipped = some false ∧
    (createBridgeAndExecute envC8 paramsC8).realMonitorEvents = [] ∧
    observedStatuses (createBridgeAndExecute envC8 paramsC8) =
      [.creating, .bridging] ∧
    IntentStatus.executing ∉ observedStatuses (createBridgeAndExecute envC8 paramsC8) ∧
    IntentStatus.completed ∉ observedStatuses (createBridgeAndExecute envC8 paramsC8) :=
  ⟨rfl, rfl, rfl, rfl, by decide, by decide⟩

/-- C9: the phase the simulated monitor reports at each tick is exactly the
spec's function of the poll counter (`pending` below 3, `bridging` below 10,
`executing` below 12, `completed` from 12 on), and on any tick that does not
report `completed`, the tick ends in `failed` with the error
"Intent timed out" exactly when the 120-tick budget is exhausted. -/
theorem c9_simulated_phase_function (n : Nat) (randTx : String) :
    (simPoll n randTx).statuses.head? = some (simPhase (n + 1)) ∧
    (simPhase (n + 1) ≠ .completed →
      (((simPoll n randTx).statuses.getLast? = some .failed ∧
        (simPoll n randTx).error = some "Intent timed out") ↔
        maxPolls ≤ n + 1)) := by
  unfold simPoll simPhase simNonTerminal maxPolls
  dsimp only
  split_ifs <;> simp_all <;> omega

/-- Witness for C9 at the first tick (counter 1: `pending`, no timeout). -/
theorem c9_simulated_phase_function_witness :
    (simPoll 0 "0xtx").statuses.head? = some (simPhase 1) ∧
    (((simPoll 0 "0xtx").statuses.getLast? = some .failed ∧
      (simPoll 0 "0xtx").error = some "Intent timed out") ↔ maxPolls ≤ 1) :=
  ⟨(c9_simulated_phase_function 0 "0xtx").1,
   (c9_simulated_phase_function 0 "0xtx").2 (by decide)⟩

/-- The whole observable result of `createBridgeAndExecute` is independent of
the request's `token` and `amount`: neither reaches the backend payload (the
source bridges the constant 1 USDC) nor any other observable output. -/
lemma cbe_ignores_token_and_amount (env : FacadeEnv) (fc tc : Nat)
    (tok1 am1 tok2 am2 tp : String) :
    createBridgeAndExecute env ⟨fc, tc, tok1, am1, tp⟩ =
      createBridgeAndExecute env ⟨fc, tc, tok2, am2, tp⟩ := by
  unfold createBridgeAndExecute createRealNexusIntent nexusBridgePayload
  dsimp only

/-- Whatever branch a call takes, any payload it submits to the backend
carries the constant token and amount. -/
lemma payloadConstants_cbe (env : FacadeEnv) (params : BridgeAndExecuteParams) :
    payloadConstants (createBridgeAndExecute env params).submittedPayload = true := by
  unfold createBridgeAndExecute
  dsimp only
  repeat' split
  all_goals rfl

/-- C10: two bridge-and-execute requests that differ only in the requested
token and amount submit identical payloads to the backend, and any submitted
payload bridges the constant token `"USDC"` with the constant amount
`"1000000"`. -/
theorem c10_payload_ignores_token_amount (env : FacadeEnv)
    (p1 p2 : BridgeAndExecuteParams)
    (hfc : p1.fromChain = p2.fromChain) (htc : p1.toChain = p2.toChain)
    (htp : p1.targetProtocol = p2.targetProtocol) :
    (createBridgeAndExecute env p1).submittedPayload =
      (createBridgeAndExecute env p2).submittedPayload ∧
    payloadConstants (createBridgeAndExecute env p1).submittedPayload = true := by
  obtain ⟨fc1, tc1, tok1, am1, tp1⟩ := p1
  obtain ⟨fc2, tc2, tok2, am2, tp2⟩ := p2
  simp only at hfc htc htp
  subst hfc; subst htc; subst htp
  exact ⟨congrArg CallResult.submittedPayload
      (cbe_ignores_token_and_amount env fc1 tc1 tok1 am1 tok2 am2 tp1),
    payloadConstants_cbe env _⟩

/-- Witness for C10: two requests differing only in token and amount, in the
baseline environment. -/
theorem c10_payload_ignores_token_amount_witness :
    (createBridgeAndExecute baseEnv
        ⟨11155111, 84532, "0xPEPE", "100", "Aave"⟩).submittedPayload =
      (createBridgeAndExecute baseEnv
        ⟨11155111, 84532, "0xDOGE", "250", "Aave"⟩).submittedPayload ∧
    payloadConstants (createBridgeAndExecute baseEnv
        ⟨11155111, 84532, "0xPEPE", "100", "Aave"⟩).submittedPayload = true :=
  c10_payload_ignores_token_amount baseEnv
    ⟨11155111, 84532, "0xPEPE", "100", "Aave"⟩
    ⟨11155111, 84532, "0xDOGE", "250", "Aave"⟩ rfl rfl rfl
